import Mathlib

/-!
Shallow embedding of `src/freezing/sync/subscribe.py` (the
`ActivityUpdateSubscriber` class of the freezing-sync repository): the
message-consumption loop that reserves jobs from a beanstalk queue,
decodes them, dispatches them by operation kind, and resolves each job
by acknowledging (`client.delete`) or releasing (`client.release`) it.

External collaborators (the marshmallow schema from `freezing.model`,
and the `ActivitySync` / `StreamSync` reconciliation methods) are kept
abstract: the loop's behaviour depends only on whether decoding
succeeds and whether an invoked collaborator raises, so they are
modelled as oracle functions supplied in an environment.  Machine
behaviour that the claims are about — which actions are invoked, in
what order, and which queue commands are issued on each path — is
translated directly from the Python control flow.
-/

namespace FreezingSync

/-- `AspectType` from `freezing.model.msg.strava`: the closed enumeration of
Strava webhook operation kinds that `handle_message` compares against. -/
inductive AspectType where
  | create
  | update
  | delete
deriving DecidableEq, Repr

/-- The value stored in the `operation` field of a decoded message.  Python is
dynamically typed and `handle_message` tests the field with `is` against the
three `AspectType` members; a value that is not one of those members (the
implicit fall-through of the `if`/`elif` chain) is represented by `other`. -/
inductive OpValue where
  | aspect (a : AspectType)
  | other (s : String)
deriving DecidableEq, Repr

/-- Python's `x is AspectType.a` identity test: true exactly when the field
holds that enum member. -/
def pyIs (v : OpValue) (a : AspectType) : Bool :=
  match v with
  | .aspect b => b == a
  | .other _ => false

/-- `ActivityUpdate` from `freezing.model.msg.mq`: the decoded message, with
the fields `handle_message` reads. -/
structure ActivityUpdate where
  operation : OpValue
  athlete_id : Int
  activity_id : Int
deriving DecidableEq, Repr

/-- One invocation of an external reconciliation action, recording which
collaborator method was called and with which arguments.  The constructors
correspond to `ActivitySync.delete_activity`,
`ActivitySync.fetch_and_store_actvitiy_detail` (sic) and
`StreamSync.fetch_and_store_activity_streams`. -/
inductive Action where
  | delete_activity (athlete_id activity_id : Int)
  | fetch_detail (athlete_id activity_id : Int)
  | fetch_streams (athlete_id activity_id : Int)
deriving DecidableEq, Repr

/-- Oracle describing whether each collaborator call succeeds (`true`) or
raises an exception (`false`) for a given `(athlete_id, activity_id)` pair.
The collaborators live outside `subscribe.py`; only success/failure of each
call is visible to the loop. -/
structure CollabEnv where
  delete_ok : Int → Int → Bool
  detail_ok : Int → Int → Bool
  streams_ok : Int → Int → Bool

/-- Result of a `handle_message` call: the collaborator invocations it made,
in order, and whether it terminated by raising an exception (`raised = true`)
rather than returning normally. -/
structure HandleResult where
  invoked : List Action
  raised : Bool
deriving DecidableEq, Repr

/-- `ActivityUpdateSubscriber.handle_message`, translated branch for branch:

* `operation is AspectType.delete` → call `delete_activity`;
* `elif operation is AspectType.update` → call `fetch_and_store_actvitiy_detail`;
* `elif operation is AspectType.create` → call
  `fetch_and_store_actvitiy_detail` then, if it returned,
  `fetch_and_store_activity_streams`;
* no `else` branch: any other value falls through and the method returns.

An exception from a collaborator propagates immediately (Python has no
handler inside `handle_message`), so a later call in the same branch is not
made when an earlier one raises. -/
def handle_message (c : CollabEnv) (m : ActivityUpdate) : HandleResult :=
  if pyIs m.operation AspectType.delete then
    { invoked := [.delete_activity m.athlete_id m.activity_id],
      raised := !(c.delete_ok m.athlete_id m.activity_id) }
  else if pyIs m.operation AspectType.update then
    { invoked := [.fetch_detail m.athlete_id m.activity_id],
      raised := !(c.detail_ok m.athlete_id m.activity_id) }
  else if pyIs m.operation AspectType.create then
    if c.detail_ok m.athlete_id m.activity_id then
      { invoked := [.fetch_detail m.athlete_id m.activity_id,
                    .fetch_streams m.athlete_id m.activity_id],
        raised := !(c.streams_ok m.athlete_id m.activity_id) }
    else
      { invoked := [.fetch_detail m.athlete_id m.activity_id],
        raised := true }
  else
    { invoked := [], raised := false }

/-- Outcome of one `self.client.reserve(timeout=30)` call, as seen by the
loop: a job was returned; the reserve timed out (`greenstalk.TimedOutError`);
the transport failed with some other exception; or a
`KeyboardInterrupt`/`SystemExit` was delivered during the call. -/
inductive ReserveOutcome where
  | timedOut
  | job (id : Nat) (body : String)
  | transportError
  | interrupt
deriving DecidableEq, Repr

/-- Observable events of one run of the loop: calls into the queue client
(`reserve`, `delete` = acknowledge, `release`), handing a decoded message to
`handle_message` (`dispatch`), the collaborator invocations made inside it
(`act`), and setting the shutdown event (`set_shutdown`). -/
inductive Event where
  | reserve (o : ReserveOutcome)
  | dispatch (m : ActivityUpdate)
  | act (a : Action)
  | delete (id : Nat)
  | release (id : Nat) (delay : Nat)
  | set_shutdown
deriving DecidableEq, Repr

/-- How a single loop iteration ends: continue to the next iteration; stop
because the `while` condition saw the shutdown event set; stop via the outer
catch-all handler (log, `shutdown_event.set()`, re-raise); or stop by
re-raising a `KeyboardInterrupt`/`SystemExit` (which the code re-raises
without setting the shutdown event). -/
inductive StepResult where
  | next
  | stopClean
  | stopFatal
  | stopRaise
deriving DecidableEq, Repr

/-- Environment of a run: the abstract decoder
(`ActivityUpdateSchema().loads(body).data`, from `freezing.model`; `none`
means the decode expression raised) and the collaborator oracle. -/
structure Env where
  decode : String → Option ActivityUpdate
  collab : CollabEnv

/-- One iteration of the `while not self.shutdown_event.is_set()` loop of
`run_forever`, given the value of the shutdown flag at the condition check
and the outcome of the `reserve` call (when one is made).  Returns the
events of the iteration and how it ends:

* flag set → the `while` condition is false; no reserve, clean stop;
* `reserve` raises `KeyboardInterrupt`/`SystemExit` → re-raised through the
  matching inner and outer handlers, shutdown event untouched;
* `reserve` raises `greenstalk.TimedOutError` → logged, `continue`;
* `reserve` raises any other (transport) exception → uncaught by the inner
  handlers, so it reaches the outer catch-all: log, `shutdown_event.set()`,
  re-raise;
* a job is reserved → its body is decoded and handled inside the inner
  `try`; any exception there (decode failure or a collaborator error) is
  caught by the bare `except:` which releases the job with `delay=20`;
  otherwise the `else:` branch deletes (acknowledges) the job. -/
def step (env : Env) (shutdown_set : Bool) (o : ReserveOutcome) :
    List Event × StepResult :=
  if shutdown_set then ([], .stopClean)
  else
    match o with
    | .interrupt => ([.reserve .interrupt], .stopRaise)
    | .timedOut => ([.reserve .timedOut], .next)
    | .transportError => ([.reserve .transportError, .set_shutdown], .stopFatal)
    | .job id body =>
      match env.decode body with
      | none => ([.reserve (.job id body), .release id 20], .next)
      | some m =>
        let r := handle_message env.collab m
        if r.raised then
          ([.reserve (.job id body), .dispatch m]
            ++ r.invoked.map Event.act ++ [.release id 20], .next)
        else
          ([.reserve (.job id body), .dispatch m]
            ++ r.invoked.map Event.act ++ [.delete id], .next)

/-- How a finite observation of the loop ends: the script of reserve
outcomes ran out while the loop was still going (`running`); the loop
returned normally after seeing the shutdown flag (`stopped`); it exited via
the fatal outer handler (`fatal`); or it re-raised an interrupt
(`interrupted`). -/
inductive LoopExit where
  | running
  | stopped
  | fatal
  | interrupted
deriving DecidableEq, Repr

/-- `ActivityUpdateSubscriber.run_forever`, driven by a finite script.  Each
script entry gives the state of the shutdown flag at that iteration's
`while` condition check (the flag is set externally, e.g. by a signal
handler) together with the reserve outcome the queue would produce if the
iteration gets that far.  The run accumulates the event trace and reports
how the loop ended. -/
def run_forever (env : Env) :
    List (Bool × ReserveOutcome) → List Event × LoopExit
  | [] => ([], .running)
  | (sd, o) :: rest =>
    match step env sd o with
    | (evs, .next) =>
      let r := run_forever env rest
      (evs ++ r.1, r.2)
    | (evs, .stopClean) => (evs, .stopped)
    | (evs, .stopFatal) => (evs, .fatal)
    | (evs, .stopRaise) => (evs, .interrupted)

/-- Recognizer for a release of the job with the given id, at any delay. -/
def isReleaseOf (id : Nat) (e : Event) : Bool :=
  match e with
  | .release j _ => j == id
  | _ => false

theorem count_map_act (l : List Action) (e : Event) (h : ∀ a, Event.act a ≠ e) :
    (l.map Event.act).count e = 0 := by
  induction l with
  | nil => rfl
  | cons a t ih => simp [List.count_cons, ih, h a]

theorem countP_isReleaseOf_map_act (l : List Action) (id : Nat) :
    (l.map Event.act).countP (isReleaseOf id) = 0 := by
  induction l with
  | nil => rfl
  | cons a t ih => simp [List.countP_cons, isReleaseOf, ih]

/-- Collaborator oracle in which every reconciliation call succeeds. -/
def collabAllOk : CollabEnv :=
  { delete_ok := fun _ _ => true
    detail_ok := fun _ _ => true
    streams_ok := fun _ _ => true }

/-- Environment whose decoder raises on every body. -/
def envDecodeFail : Env :=
  { decode := fun _ => none, collab := collabAllOk }

/-- Environment decoding every body to an `update` event, with all
collaborator calls succeeding. -/
def envUpdateOk : Env :=
  { decode := fun _ => some ⟨.aspect .update, 42, 1001⟩, collab := collabAllOk }

/-- Environment decoding every body to a `create` event whose detail-refresh
collaborator raises. -/
def envDetailFail : Env :=
  { decode := fun _ => some ⟨.aspect .create, 42, 1002⟩
    collab := { collabAllOk with detail_ok := fun _ _ => false } }

/-- Environment decoding every body to an event whose operation is none of
the three `AspectType` members. -/
def envUnknownOp : Env :=
  { decode := fun _ => some ⟨.other "archive", 42, 1003⟩, collab := collabAllOk }

/-- C1, as stated, is false on the code: for the job reserved with an
undecodable body, the loop does not acknowledge it exactly once with no
release — at this concrete input it acknowledges it zero times and releases
it once. -/
theorem C1_counterexample :
    ¬ ((step envDecodeFail false (.job 1 "x")).1.count (.delete 1) = 1
        ∧ (step envDecodeFail false (.job 1 "x")).1.countP (isReleaseOf 1) = 0) := by
  decide

/-- C1 (amended): for every reserved job whose body fails to decode, the
loop releases the job back to the queue with delay 20 (it does not
acknowledge it and does not pass it to the dispatcher), and remains
running. -/
theorem C1_decode_failure_releases (env : Env) (id : Nat) (body : String)
    (h : env.decode body = none) :
    step env false (.job id body) =
      ([.reserve (.job id body), .release id 20], .next) := by
  simp [step, h]

/-- Witness for C1 at a concrete input. -/
theorem C1_witness :
    envDecodeFail.decode "x" = none
      ∧ step envDecodeFail false (.job 1 "x") =
          ([.reserve (.job 1 "x"), .release 1 20], .next) :=
  ⟨rfl, C1_decode_failure_releases envDecodeFail 1 "x" rfl⟩

/-- C2, as stated, is false on the code: at this concrete input a transport
error from `reserve` exits the loop through the fatal path, setting the
shutdown signal, rather than remaining running. -/
theorem C2_counterexample :
    (run_forever envDecodeFail [(false, .transportError)]).2 = .fatal
      ∧ Event.set_shutdown ∈ (run_forever envDecodeFail [(false, .transportError)]).1 := by
  decide

/-- C2 (amended): a transport error returned by `reserve` is not caught by
the inner handlers, so it always takes the fatal path — the loop logs it,
sets the shutdown signal and exits by re-raising; it never loops to retry
the reserve. -/
theorem C2_transport_error_fatal (env : Env) (rest : List (Bool × ReserveOutcome)) :
    run_forever env ((false, .transportError) :: rest) =
      ([.reserve .transportError, .set_shutdown], .fatal) := rfl

/-- C3: for every event with operation `create`, dispatch invokes
detail-refresh first and stream-fetch second, both on the event's
`(athlete_id, activity_id)`; when detail-refresh raises, stream-fetch is not
invoked. -/
theorem C3_create_detail_then_streams (c : CollabEnv) (a i : Int) :
    (handle_message c ⟨.aspect .create, a, i⟩).invoked =
      (if c.detail_ok a i then [.fetch_detail a i, .fetch_streams a i]
       else [.fetch_detail a i]) := by
  cases h : c.detail_ok a i <;> simp [handle_message, pyIs, h]

/-- C6: for every event with operation `update`, dispatch invokes exactly
the detail-refresh action with the event's `(athlete_id, activity_id)` —
never stream-fetch, never delete. -/
theorem C6_update_only_detail (c : CollabEnv) (a i : Int) :
    (handle_message c ⟨.aspect .update, a, i⟩).invoked = [.fetch_detail a i] := rfl

/-- C7: for every event with operation `delete`, dispatch invokes exactly
the delete action with the event's `(athlete_id, activity_id)` — never
detail-refresh, never stream-fetch. -/
theorem C7_delete_only_delete (c : CollabEnv) (a i : Int) :
    (handle_message c ⟨.aspect .delete, a, i⟩).invoked = [.delete_activity a i] := rfl

/-- C4: for every reserved job that decodes but whose dispatch raises, the
loop releases the job with the fixed delay 20 after the dispatch attempt,
never acknowledges it, and remains running; a redelivery of the same body
(under any job id) produces another dispatch of the same decoded event. -/
theorem C4_dispatch_failure_releases (env : Env) (id id2 : Nat) (body : String)
    (m : ActivityUpdate) (h : env.decode body = some m)
    (hr : (handle_message env.collab m).raised = true) :
    step env false (.job id body) =
      ([.reserve (.job id body), .dispatch m]
        ++ (handle_message env.collab m).invoked.map Event.act
        ++ [.release id 20], .next)
      ∧ (step env false (.job id body)).1.count (.delete id) = 0
      ∧ Event.dispatch m ∈ (step env false (.job id2 body)).1 := by
  have heq : ∀ j : Nat, step env false (.job j body) =
      ([.reserve (.job j body), .dispatch m]
        ++ (handle_message env.collab m).invoked.map Event.act
        ++ [.release j 20], .next) := by
    intro j
    simp [step, h, hr]
  refine ⟨heq id, ?_, ?_⟩
  · rw [heq id]
    simp [List.count_cons, List.count_append, count_map_act]
  · rw [heq id2]
    simp

/-- Witness for C4 at a concrete input: a `create` event whose detail-refresh
collaborator raises. -/
theorem C4_witness :
    envDetailFail.decode "b" = some ⟨.aspect .create, 42, 1002⟩
      ∧ (handle_message envDetailFail.collab ⟨.aspect .create, 42, 1002⟩).raised = true
      ∧ (step envDetailFail false (.job 5 "b") =
          ([.reserve (.job 5 "b"), .dispatch ⟨.aspect .create, 42, 1002⟩]
            ++ (handle_message envDetailFail.collab
                  ⟨.aspect .create, 42, 1002⟩).invoked.map Event.act
            ++ [.release 5 20], .next)
          ∧ (step envDetailFail false (.job 5 "b")).1.count (.delete 5) = 0
          ∧ Event.dispatch ⟨.aspect .create, 42, 1002⟩
              ∈ (step envDetailFail false (.job 7 "b")).1) :=
  ⟨rfl, rfl, C4_dispatch_failure_releases envDetailFail 5 7 "b" ⟨.aspect .create, 42, 1002⟩ rfl rfl⟩

/-- C5: for every reserved job whose body decodes and whose dispatch returns
normally, the loop acknowledges the job exactly once after the dispatch,
and never releases it. -/
theorem C5_dispatch_success_acks (env : Env) (id : Nat) (body : String)
    (m : ActivityUpdate) (h : env.decode body = some m)
    (hr : (handle_message env.collab m).raised = false) :
    step env false (.job id body) =
      ([.reserve (.job id body), .dispatch m]
        ++ (handle_message env.collab m).invoked.map Event.act
        ++ [.delete id], .next)
      ∧ (step env false (.job id body)).1.count (.delete id) = 1
      ∧ (step env false (.job id body)).1.countP (isReleaseOf id) = 0 := by
  have heq : step env false (.job id body) =
      ([.reserve (.job id body), .dispatch m]
        ++ (handle_message env.collab m).invoked.map Event.act
        ++ [.delete id], .next) := by
    simp [step, h, hr]
  refine ⟨heq, ?_, ?_⟩
  · rw [heq]
    simp [List.count_cons, List.count_append, count_map_act]
  · rw [heq]
    simp [List.countP_cons, List.countP_append, countP_isReleaseOf_map_act, isReleaseOf]

/-- Witness for C5 at a concrete input: an `update` event whose collaborator
succeeds. -/
theorem C5_witness :
    envUpdateOk.decode "b" = some ⟨.aspect .update, 42, 1001⟩
      ∧ (handle_message envUpdateOk.collab ⟨.aspect .update, 42, 1001⟩).raised = false
      ∧ (step envUpdateOk false (.job 3 "b") =
          ([.reserve (.job 3 "b"), .dispatch ⟨.aspect .update, 42, 1001⟩]
            ++ (handle_message envUpdateOk.collab
                  ⟨.aspect .update, 42, 1001⟩).invoked.map Event.act
            ++ [.delete 3], .next)
          ∧ (step envUpdateOk false (.job 3 "b")).1.count (.delete 3) = 1
          ∧ (step envUpdateOk false (.job 3 "b")).1.countP (isReleaseOf 3) = 0) :=
  ⟨rfl, rfl, C5_dispatch_success_acks envUpdateOk 3 "b" ⟨.aspect .update, 42, 1001⟩ rfl rfl⟩

/-- C8: once the shutdown signal is set, an iteration makes no reserve call
and the loop stops cleanly; repeated timeouts with the signal unset keep the
loop reserving, and the next condition check after the signal is set stops
it cleanly; and a job already reserved is always resolved — the iteration
runs to completion (`next`) and issues exactly one resolution (acknowledge
or release) for that job. -/
theorem C8_shutdown_behaviour (env : Env) (o : ReserveOutcome)
    (rest : List (Bool × ReserveOutcome)) (id : Nat) (body : String) :
    run_forever env ((true, o) :: rest) = ([], .stopped)
      ∧ run_forever env [(false, .timedOut), (true, o)] = ([.reserve .timedOut], .stopped)
      ∧ (step env false (.job id body)).2 = .next
      ∧ (step env false (.job id body)).1.count (.delete id)
          + (step env false (.job id body)).1.countP (isReleaseOf id) = 1 := by
  refine ⟨rfl, rfl, ?_⟩
  cases h : env.decode body with
  | none =>
    simp [step, h, List.count_cons, List.countP_cons, isReleaseOf]
  | some m =>
    cases hr : (handle_message env.collab m).raised <;>
      simp [step, h, hr, List.count_cons, List.count_append, List.countP_cons,
            List.countP_append, count_map_act, countP_isReleaseOf_map_act, isReleaseOf]

/-- C9, as stated, is false on the code: at this concrete input (a timeout
followed by a transport error) the loop itself mutates the shutdown signal,
setting it on its fatal path. -/
theorem C9_counterexample :
    Event.set_shutdown ∈ (run_forever envUpdateOk
      [(false, .timedOut), (false, .transportError)]).1 := by
  decide

/-- C9 (amended): the loop sets the shutdown signal exactly once when it
exits through the fatal unhandled-error path, and never sets it on any
other path — on every run, the number of times it sets the signal is one if
the run ended fatally and zero otherwise. -/
theorem C9_sets_shutdown_iff_fatal (env : Env)
    (script : List (Bool × ReserveOutcome)) :
    (run_forever env script).1.count Event.set_shutdown
      = (if (run_forever env script).2 = .fatal then 1 else 0) := by
  induction script with
  | nil => rfl
  | cons p rest ih =>
    obtain ⟨sd, o⟩ := p
    cases sd with
    | true => simp [run_forever, step]
    | false =>
      cases o with
      | timedOut =>
        simp [run_forever, step, List.count_cons, List.count_append, ih]
      | interrupt =>
        simp [run_forever, step, List.count_cons]
      | transportError =>
        simp [run_forever, step, List.count_cons]
      | job id body =>
        cases h : env.decode body with
        | none =>
          simp [run_forever, step, h, List.count_cons, List.count_append, ih]
        | some m =>
          cases hr : (handle_message env.collab m).raised <;>
            simp [run_forever, step, h, hr, List.count_cons, List.count_append,
                  count_map_act, ih]

/-- C10: for every decoded event whose operation is none of the three
`AspectType` members, `handle_message` falls through the `if`/`elif` chain:
it invokes no action and returns normally, so the loop iteration
acknowledges the job exactly as on dispatch success. -/
theorem C10_unknown_op_no_action (env : Env) (id : Nat) (body s : String)
    (a i : Int) (h : env.decode body = some ⟨.other s, a, i⟩) :
    handle_message env.collab ⟨.other s, a, i⟩ = ⟨[], false⟩
      ∧ step env false (.job id body) =
          ([.reserve (.job id body), .dispatch ⟨.other s, a, i⟩, .delete id], .next) := by
  refine ⟨rfl, ?_⟩
  simp [step, h, handle_message, pyIs]

/-- Witness for C10 at a concrete input: an event with operation tag
`archive`. -/
theorem C10_witness :
    envUnknownOp.decode "b" = some ⟨.other "archive", 42, 1003⟩
      ∧ (handle_message envUnknownOp.collab ⟨.other "archive", 42, 1003⟩ = ⟨[], false⟩
        ∧ step envUnknownOp false (.job 9 "b") =
            ([.reserve (.job 9 "b"), .dispatch ⟨.other "archive", 42, 1003⟩,
              .delete 9], .next)) :=
  ⟨rfl, C10_unknown_op_no_action envUnknownOp 9 "b" "archive" 42 1003 rfl⟩

end FreezingSync
